import Mathlib

/-!
Shallow embedding of `python/prophet/hdays.py` (per-country public-holiday
population) together with the external calendar collaborators it calls:
the tabular Islamic calendar of `convertdate.islamic`, the proleptic
Gregorian conversions of `convertdate.gregorian`, and `dateutil.easter`.
Julian days are represented by the integer `jd - 0.5` (all Julian day
values occurring in these routines are half-integers denoting midnight).
The Chinese lunisolar converter (`lunarcalendar.Converter.Lunar2Solar`) is
kept as an explicit function parameter.
-/

namespace Hdays

/-- A proleptic Gregorian calendar date as Python's `datetime.date` produces
it: plain integer year, month and day fields. -/
structure GDate where
  year : Int
  month : Int
  day : Int
deriving DecidableEq, Repr

/-- Ceiling division by a positive divisor, matching Python `math.ceil(a / b)`
for integer `a` and positive integer `b`. -/
def ceildiv (a b : Int) : Int := Int.fdiv (a + b - 1) b

/-- Gregorian leap-year test of `convertdate.gregorian.leap`. -/
def gregorianLeap (year : Int) : Bool :=
  year % 4 == 0 && (year % 100 != 0 || year % 400 == 0)

/-- `convertdate.gregorian.to_jd`, shifted by `-0.5` so that it returns an
integer (Python `//` is `Int.fdiv`, Python `%` on positive divisors is
`Int.emod`, which is Lean's `%` on `Int`). -/
def gregorian_to_jdn (year month day : Int) : Int :=
  let leapAdj : Int := if month ≤ 2 then 0 else if gregorianLeap year then -1 else -2
  1721424 + 365 * (year - 1) + Int.fdiv (year - 1) 4 - Int.fdiv (year - 1) 100
    + Int.fdiv (year - 1) 400 + Int.fdiv (367 * month - 362) 12 + leapAdj + day

/-- `convertdate.gregorian.from_jd` on the `-0.5`-shifted integer Julian day. -/
def gregorian_from_jdn (k : Int) : GDate :=
  let depoch := k - 1721425
  let quadricent := Int.fdiv depoch 146097
  let dqc := depoch % 146097
  let cent := Int.fdiv dqc 36524
  let dcent := dqc % 36524
  let quad := Int.fdiv dcent 1461
  let dquad := dcent % 1461
  let yindex := Int.fdiv dquad 365
  let y0 := quadricent * 400 + cent * 100 + quad * 4 + yindex
  let year := if cent = 4 ∨ yindex = 4 then y0 else y0 + 1
  let yearday := k - gregorian_to_jdn year 1 1
  let leapAdj : Int :=
    if k < gregorian_to_jdn year 3 1 then 0 else if gregorianLeap year then 1 else 2
  let month := Int.fdiv ((yearday + leapAdj) * 12 + 373) 367
  let day := k - gregorian_to_jdn year month 1 + 1
  ⟨year, month, day⟩

/-- `convertdate.islamic.to_jd` (tabular Islamic calendar), shifted by `-0.5`;
`ceil(29.5 * (month - 1))` is `ceildiv (59 * (month - 1)) 2`. -/
def islamic_to_jdn (year month day : Int) : Int :=
  day + ceildiv (59 * (month - 1)) 2 + (year - 1) * 354
    + Int.fdiv (3 + 11 * year) 30 + 1948438

/-- `convertdate.islamic.from_jd` on the `-0.5`-shifted integer Julian day. -/
def islamic_from_jdn (k : Int) : Int × Int × Int :=
  let year := Int.fdiv (30 * (k - 1948439) + 10646) 10631
  let month := min 12 (ceildiv (2 * (k - 29 - islamic_to_jdn year 1 1)) 59 + 1)
  let day := k - islamic_to_jdn year month 1 + 1
  (year, month, day)

/-- `convertdate.islamic.from_gregorian`. -/
def from_gregorian (year month day : Int) : Int × Int × Int :=
  islamic_from_jdn (gregorian_to_jdn year month day)

/-- `convertdate.islamic.to_gregorian`. -/
def to_gregorian (year month day : Int) : GDate :=
  gregorian_from_jdn (islamic_to_jdn year month day)

/-- `dateutil.easter.easter`: `method = 3` is `EASTER_WESTERN` (the Python
default), `method = 2` is `EASTER_ORTHODOX`, `method = 1` the Julian
calendar date. -/
def easter (year : Int) (method : Int) : GDate :=
  let y := year
  let g := y % 19
  if method < 3 then
    let i := (19 * g + 15) % 30
    let j := (y + Int.fdiv y 4 + i) % 7
    let e : Int :=
      if method = 2 then
        if y > 1600 then 10 + Int.fdiv y 100 - 16 - Int.fdiv (Int.fdiv y 100 - 16) 4
        else 10
      else 0
    let p := i - j + e
    ⟨y, 3 + Int.fdiv (p + 26) 30, 1 + (p + 27 + Int.fdiv (p + 6) 40) % 31⟩
  else
    let c := Int.fdiv y 100
    let h := (c - Int.fdiv c 4 - Int.fdiv (8 * c + 13) 25 + 19 * g + 15) % 30
    let i := h - (Int.fdiv h 28) *
      (1 - (Int.fdiv h 28) * (Int.fdiv 29 (h + 1)) * (Int.fdiv (21 - g) 11))
    let j := (y + Int.fdiv y 4 + i + 2 - c + Int.fdiv c 4) % 7
    let p := i - j
    ⟨y, 3 + Int.fdiv (p + 26) 30, 1 + (p + 27 + Int.fdiv (p + 6) 40) % 31⟩

/-- Python date arithmetic `d + timedelta(days = n)` (also covering
`relativedelta(days = n)`) on the proleptic Gregorian calendar. -/
def addDays (d : GDate) (n : Int) : GDate :=
  gregorian_from_jdn (gregorian_to_jdn d.year d.month d.day + n)

/-- Python `date.weekday()`: Monday is `0`, ..., Sunday is `6`. -/
def weekday (d : GDate) : Int :=
  (gregorian_to_jdn d.year d.month d.day - 1721425) % 7

/-- Membership in `holidays.WEEKEND = (SAT, SUN) = (5, 6)`. -/
def WEEKEND (wd : Int) : Bool := wd == 5 || wd == 6

/-- A single dictionary write `self[date] = name` performed by a
`_populate` method. -/
abbrev Entry := GDate × String

/-- The write performed under an `if` guard: `[e]` when the guard holds,
nothing otherwise. -/
def guardW (b : Bool) (e : Entry) : List Entry := if b then [e] else []

/-- The offsets of the year-boundary search loop `for offset in range(-1, 2, 1)`. -/
def offsets : List Int := [-1, 0, 1]

/-- The Chinese lunisolar converter `lunarcalendar.Converter.Lunar2Solar`
composed with `Lunar(year, month, day)`, kept as an explicit parameter
(an opaque external collaborator of the module). -/
abbrev Lunar2Solar := Int → Int → Int → GDate

/-- The date-to-name mapping denoted by a sequence of dictionary writes:
the last write to a key wins, exactly as for a Python `dict`. -/
def lookupLast (l : List Entry) (d : GDate) : Option String :=
  l.foldl (fun acc p => if p.1 = d then some p.2 else acc) none

/-! ### Indonesia._populate -/

/-- Indonesia: New Year block (hdays.py lines 38-42); skipped iff
`not observed` and Jan 1 falls on a weekend. -/
def indonesiaNewYear (observed : Bool) (year : Int) : List Entry :=
  if !observed && WEEKEND (weekday ⟨year, 1, 1⟩) then []
  else [(⟨year, 1, 1⟩, "New Year's Day")]

/-- Indonesia: Chinese New Year loop (lines 45-49). -/
def indonesiaChineseNewYear (lunar2solar : Lunar2Solar) (year : Int) : List Entry :=
  offsets.flatMap fun offset =>
    let ds := lunar2solar (year + offset) 1 1
    guardW (ds.year == year) (ds, "Chinese New Year")

/-- Indonesia: hard-coded Nyepi table (lines 59-83). -/
def indonesiaNyepi (year : Int) : List Entry :=
  if year = 2009 then [(⟨year, 3, 26⟩, "Day of Silence/ Nyepi")]
  else if year = 2010 then [(⟨year, 3, 16⟩, "Day of Silence/ Nyepi")]
  else if year = 2011 then [(⟨year, 3, 5⟩, "Day of Silence/ Nyepi")]
  else if year = 2012 then [(⟨year, 3, 23⟩, "Day of Silence/ Nyepi")]
  else if year = 2013 then [(⟨year, 3, 12⟩, "Day of Silence/ Nyepi")]
  else if year = 2014 then [(⟨year, 3, 31⟩, "Day of Silence/ Nyepi")]
  else if year = 2015 then [(⟨year, 3, 21⟩, "Day of Silence/ Nyepi")]
  else if year = 2016 then [(⟨year, 3, 9⟩, "Day of Silence/ Nyepi")]
  else if year = 2017 then [(⟨year, 3, 28⟩, "Day of Silence/ Nyepi")]
  else if year = 2018 then [(⟨year, 3, 17⟩, "Day of Silence/ Nyepi")]
  else if year = 2019 then [(⟨year, 3, 7⟩, "Day of Silence/ Nyepi")]
  else []

/-- Indonesia: Ascension of the Prophet loop (lines 86-91). -/
def indonesiaAscensionProphet (year : Int) : List Entry :=
  offsets.flatMap fun offset =>
    let islam_year := (from_gregorian (year + offset) 3 17).1
    let ds := to_gregorian islam_year 7 27
    guardW (ds.year == year) (ds, "Ascension of the Prophet")

/-- Indonesia: Labor Day (line 95). -/
def indonesiaLaborDay (year : Int) : List Entry := [(⟨year, 5, 1⟩, "Labor Day")]

/-- Indonesia: Ascension of Jesus loop, Easter + 39 days (lines 98-102). -/
def indonesiaAscensionJesus (year : Int) : List Entry :=
  offsets.flatMap fun offset =>
    let ds := addDays (easter (year + offset) 3) 39
    guardW (ds.year == year) (ds, "Ascension of Jesus")

/-- Indonesia: Buddha's Birthday loop, lunar (4, 15) (lines 105-109). -/
def indonesiaBuddha (lunar2solar : Lunar2Solar) (year : Int) : List Entry :=
  offsets.flatMap fun offset =>
    let ds := lunar2solar (year + offset) 4 15
    guardW (ds.year == year) (ds, "Buddha's Birthday")

/-- Indonesia: Pancasila Day, since 2017 (lines 112-114). -/
def indonesiaPancasila (year : Int) : List Entry :=
  if year ≥ 2017 then [(⟨year, 6, 1⟩, "Pancasila Day")] else []

/-- Indonesia: Eid al-Fitr loop (lines 117-125); note that under the
`y1 == year` guard the source writes `date(y1, m2, d2)`, i.e. the month
and day of the second Shawwal day with the year of the first. -/
def indonesiaEidAlFitr (year : Int) : List Entry :=
  offsets.flatMap fun offset =>
    let islam_year := (from_gregorian (year + offset) 6 15).1
    let g1 := to_gregorian islam_year 10 1
    let g2 := to_gregorian islam_year 10 2
    guardW (g1.year == year) (⟨g1.year, g2.month, g2.day⟩, "Eid al-Fitr")
      ++ guardW (g2.year == year) (⟨g2.year, g2.month, g2.day⟩, "Eid al-Fitr")

/-- Indonesia: Independence Day (line 129). -/
def indonesiaIndependence (year : Int) : List Entry :=
  [(⟨year, 8, 17⟩, "Independence Day")]

/-- Indonesia: Feast of the Sacrifice loop (lines 132-137). -/
def indonesiaSacrifice (year : Int) : List Entry :=
  offsets.flatMap fun offset =>
    let islam_year := (from_gregorian (year + offset) 8 22).1
    let ds := to_gregorian islam_year 12 10
    guardW (ds.year == year) (ds, "Feast of the Sacrifice")

/-- Indonesia: Islamic New Year loop (lines 140-145). -/
def indonesiaIslamicNewYear (year : Int) : List Entry :=
  offsets.flatMap fun offset =>
    let islam_year := (from_gregorian (year + offset) 9 11).1
    let ds := to_gregorian (islam_year + 1) 1 1
    guardW (ds.year == year) (ds, "Islamic New Year")

/-- Indonesia: Birth of the Prophet loop (lines 148-153). -/
def indonesiaBirthProphet (year : Int) : List Entry :=
  offsets.flatMap fun offset =>
    let islam_year := (from_gregorian (year + offset) 11 20).1
    let ds := to_gregorian (islam_year + 1) 3 12
    guardW (ds.year == year) (ds, "Birth of the Prophet")

/-- Indonesia: Christmas (line 156). -/
def indonesiaChristmas (year : Int) : List Entry := [(⟨year, 12, 25⟩, "Christmas")]

/-- All writes of `Indonesia._populate(year)` after the New Year block,
in program order; none of them consults the `observed` flag. -/
def indonesiaRest (lunar2solar : Lunar2Solar) (year : Int) : List Entry :=
  indonesiaChineseNewYear lunar2solar year
  ++ indonesiaNyepi year
  ++ indonesiaAscensionProphet year
  ++ indonesiaLaborDay year
  ++ indonesiaAscensionJesus year
  ++ indonesiaBuddha lunar2solar year
  ++ indonesiaPancasila year
  ++ indonesiaEidAlFitr year
  ++ indonesiaIndependence year
  ++ indonesiaSacrifice year
  ++ indonesiaIslamicNewYear year
  ++ indonesiaBirthProphet year
  ++ indonesiaChristmas year

/-- All dictionary writes of `Indonesia._populate(year)` in program order. -/
def indonesiaAsgs (observed : Bool) (lunar2solar : Lunar2Solar) (year : Int) :
    List Entry :=
  indonesiaNewYear observed year ++ indonesiaRest lunar2solar year

/-- The `warnings.warn` calls of `Indonesia._populate` (lines 56-57):
unconditional, one per call, for every requested year. -/
def indonesiaWarns (_year : Int) : List String :=
  ["We only support Nyepi holiday from 2009 to 2019"]

/-! ### India._populate -/

/-- India: the three national days plus the fixed Christian dates
(lines 187-196 and 339-403, fixed-date part). -/
def indiaRepublicDay (year : Int) : List Entry := [(⟨year, 1, 26⟩, "Republic Day")]

/-- India: Independence Day (line 192). -/
def indiaIndependence (year : Int) : List Entry :=
  [(⟨year, 8, 15⟩, "Independence Day")]

/-- India: Gandhi Jayanti (line 196). -/
def indiaGandhi (year : Int) : List Entry := [(⟨year, 10, 2⟩, "Gandhi Jayanti")]

/-- India: hard-coded Diwali and Holi table (lines 212-276); each supported
year writes Diwali then Holi. -/
def indiaDiwaliHoli (year : Int) : List Entry :=
  if year = 2010 then [(⟨year, 12, 5⟩, "Diwali"), (⟨year, 2, 28⟩, "Holi")]
  else if year = 2011 then [(⟨year, 10, 26⟩, "Diwali"), (⟨year, 3, 19⟩, "Holi")]
  else if year = 2012 then [(⟨year, 11, 13⟩, "Diwali"), (⟨year, 3, 8⟩, "Holi")]
  else if year = 2013 then [(⟨year, 11, 3⟩, "Diwali"), (⟨year, 3, 26⟩, "Holi")]
  else if year = 2014 then [(⟨year, 10, 23⟩, "Diwali"), (⟨year, 3, 17⟩, "Holi")]
  else if year = 2015 then [(⟨year, 11, 11⟩, "Diwali"), (⟨year, 3, 6⟩, "Holi")]
  else if year = 2016 then [(⟨year, 10, 30⟩, "Diwali"), (⟨year, 3, 24⟩, "Holi")]
  else if year = 2017 then [(⟨year, 10, 19⟩, "Diwali"), (⟨year, 3, 13⟩, "Holi")]
  else if year = 2018 then [(⟨year, 11, 7⟩, "Diwali"), (⟨year, 3, 2⟩, "Holi")]
  else if year = 2019 then [(⟨year, 10, 27⟩, "Diwali"), (⟨year, 3, 21⟩, "Holi")]
  else if year = 2020 then [(⟨year, 11, 14⟩, "Diwali"), (⟨year, 3, 9⟩, "Holi")]
  else if year = 2021 then [(⟨year, 11, 4⟩, "Diwali"), (⟨year, 3, 28⟩, "Holi")]
  else if year = 2022 then [(⟨year, 10, 24⟩, "Diwali"), (⟨year, 3, 18⟩, "Holi")]
  else if year = 2023 then [(⟨year, 10, 12⟩, "Diwali"), (⟨year, 3, 7⟩, "Holi")]
  else if year = 2024 then [(⟨year, 11, 1⟩, "Diwali"), (⟨year, 3, 25⟩, "Holi")]
  else if year = 2025 then [(⟨year, 10, 21⟩, "Diwali"), (⟨year, 3, 14⟩, "Holi")]
  else if year = 2026 then [(⟨year, 11, 8⟩, "Diwali"), (⟨year, 3, 3⟩, "Holi")]
  else if year = 2027 then [(⟨year, 10, 29⟩, "Diwali"), (⟨year, 3, 22⟩, "Holi")]
  else if year = 2028 then [(⟨year, 10, 17⟩, "Diwali"), (⟨year, 3, 11⟩, "Holi")]
  else if year = 2029 then [(⟨year, 11, 5⟩, "Diwali"), (⟨year, 2, 28⟩, "Holi")]
  else if year = 2030 then [(⟨year, 10, 26⟩, "Diwali"), (⟨year, 3, 19⟩, "Holi")]
  else []

/-- India: Day of Ashura loop (lines 288-293). -/
def indiaAshura (year : Int) : List Entry :=
  offsets.flatMap fun offset =>
    let islam_year := (from_gregorian (year + offset) 10 1).1
    let ds := to_gregorian islam_year 1 10
    guardW (ds.year == year) (ds, "Day of Ashura")

/-- India: Mawlid loop (lines 297-302). -/
def indiaMawlid (year : Int) : List Entry :=
  offsets.flatMap fun offset =>
    let islam_year := (from_gregorian (year + offset) 11 20).1
    let ds := to_gregorian islam_year 3 12
    guardW (ds.year == year) (ds, "Mawlid")

/-- India: Eid ul-Fitr loop, days 1 and 2 of Shawwal (lines 306-314). -/
def indiaEidAlFitr (year : Int) : List Entry :=
  offsets.flatMap fun offset =>
    let islam_year := (from_gregorian (year + offset) 6 15).1
    let g1 := to_gregorian islam_year 10 1
    let g2 := to_gregorian islam_year 10 2
    guardW (g1.year == year) (⟨g1.year, g1.month, g1.day⟩, "Eid al-Fitr")
      ++ guardW (g2.year == year) (⟨g2.year, g2.month, g2.day⟩, "Eid al-Fitr")

/-- India: Feast of the Sacrifice loop (lines 317-322). -/
def indiaSacrifice (year : Int) : List Entry :=
  offsets.flatMap fun offset =>
    let islam_year := (from_gregorian (year + offset) 8 22).1
    let ds := to_gregorian islam_year 12 10
    guardW (ds.year == year) (ds, "Feast of the Sacrifice")

/-- India: New Year's Day (line 340). -/
def indiaNewYear (year : Int) : List Entry := [(⟨year, 1, 1⟩, "New Year's Day")]

/-- India: Palm Sunday loop, Easter - 7 days (lines 343-347). -/
def indiaPalmSunday (year : Int) : List Entry :=
  offsets.flatMap fun offset =>
    let ds := addDays (easter (year + offset) 3) (-7)
    guardW (ds.year == year) (ds, "Palm Sunday")

/-- India: Maundy Thursday loop, Easter - 3 days (lines 350-354). -/
def indiaMaundyThursday (year : Int) : List Entry :=
  offsets.flatMap fun offset =>
    let ds := addDays (easter (year + offset) 3) (-3)
    guardW (ds.year == year) (ds, "Maundy Thursday")

/-- India: Good Friday loop, Easter - 2 days (lines 357-361). -/
def indiaGoodFriday (year : Int) : List Entry :=
  offsets.flatMap fun offset =>
    let ds := addDays (easter (year + offset) 3) (-2)
    guardW (ds.year == year) (ds, "Good Friday")

/-- India: Easter Sunday loop (lines 364-368). -/
def indiaEasterSunday (year : Int) : List Entry :=
  offsets.flatMap fun offset =>
    let ds := easter (year + offset) 3
    guardW (ds.year == year) (ds, "Easter Sunday")

/-- India: Feast of Pentecost loop, Easter + 49 days (lines 371-375). -/
def indiaPentecost (year : Int) : List Entry :=
  offsets.flatMap fun offset =>
    let ds := addDays (easter (year + offset) 3) 49
    guardW (ds.year == year) (ds, "Feast of Pentecost")

/-- India: remaining fixed-date Christian holidays (lines 378-403). -/
def indiaFixedTail (year : Int) : List Entry :=
  [(⟨year, 9, 5⟩, "Fest of St. Theresa of Calcutta"),
   (⟨year, 9, 8⟩, "Feast of the Blessed Virgin"),
   (⟨year, 11, 1⟩, "All Saints Day"),
   (⟨year, 11, 2⟩, "All Souls Day"),
   (⟨year, 12, 25⟩, "Christmas Day"),
   (⟨year, 12, 26⟩, "Boxing Day"),
   (⟨year, 12, 30⟩, "Feast of Holy Family")]

/-- All dictionary writes of `India._populate(year)` in program order. -/
def indiaAsgs (year : Int) : List Entry :=
  indiaRepublicDay year ++ indiaIndependence year ++ indiaGandhi year
  ++ indiaDiwaliHoli year
  ++ indiaAshura year ++ indiaMawlid year ++ indiaEidAlFitr year
  ++ indiaSacrifice year
  ++ indiaNewYear year
  ++ indiaPalmSunday year ++ indiaMaundyThursday year ++ indiaGoodFriday year
  ++ indiaEasterSunday year ++ indiaPentecost year
  ++ indiaFixedTail year

/-- The `warnings.warn` calls of `India._populate` (lines 208-209):
unconditional, one per call. -/
def indiaWarns (_year : Int) : List String :=
  ["We only support Diwali and Holi holidays from 2010 to 2030"]

/-! ### Thailand._populate -/

/-- Thailand: New Year's Day (line 504). -/
def thailandNewYear (year : Int) : List Entry := [(⟨year, 1, 1⟩, "New Year's Day")]

/-- Thailand: hard-coded Magha Pujab table, 2016-2019 (lines 512-522);
no warning accompanies this table. -/
def thailandMaghaPujab (year : Int) : List Entry :=
  if year = 2016 then [(⟨year, 2, 22⟩, "Magha Pujab/Makha Bucha")]
  else if year = 2017 then [(⟨year, 2, 11⟩, "Magha Pujab/Makha Bucha")]
  else if year = 2018 then [(⟨year, 3, 1⟩, "Magha Pujab/Makha Bucha")]
  else if year = 2019 then [(⟨year, 2, 19⟩, "Magha Pujab/Makha Bucha")]
  else []

/-- Thailand: Chakri Memorial Day with its unconditional weekend shift
(lines 525-532): April 8 if April 6 is a Saturday, April 7 if a Sunday,
April 6 otherwise. -/
def thailandChakri (year : Int) : List Entry :=
  if weekday ⟨year, 4, 6⟩ = 5 then [(⟨year, 4, 6 + 2⟩, "Chakri Memorial Day")]
  else if weekday ⟨year, 4, 6⟩ = 6 then [(⟨year, 4, 6 + 1⟩, "Chakri Memorial Day")]
  else [(⟨year, 4, 6⟩, "Chakri Memorial Day")]

/-- Thailand: Songkran Festival (line 536). -/
def thailandSongkran (year : Int) : List Entry :=
  [(⟨year, 4, 14⟩, "Songkran Festival")]

/-- Thailand: Buddha's Birthday loop, lunar (4, 15) (lines 542-546). -/
def thailandBuddha (lunar2solar : Lunar2Solar) (year : Int) : List Entry :=
  offsets.flatMap fun offset =>
    let ds := lunar2solar (year + offset) 4 15
    guardW (ds.year == year) (ds, "Buddha's Birthday")

/-- Thailand: Coronation Day, removed in 2017 (lines 549-551). -/
def thailandCoronation (year : Int) : List Entry :=
  if year < 2017 then [(⟨year, 5, 5⟩, "Coronation Day")] else []

/-- Thailand: King Maha Vajiralongkorn's Birthday (line 555). -/
def thailandKingVajiralongkorn (year : Int) : List Entry :=
  [(⟨year, 7, 28⟩, "King Maha Vajiralongkorn's Birthday")]

/-- Thailand: hard-coded Asalha Puja table, 2006-2025 (lines 564-606). -/
def thailandAsalhaPuja (year : Int) : List Entry :=
  if year = 2006 then [(⟨year, 7, 11⟩, "Asalha Puja")]
  else if year = 2007 then [(⟨year, 6, 30⟩, "Asalha Puja")]
  else if year = 2008 then [(⟨year, 7, 18⟩, "Asalha Puja")]
  else if year = 2009 then [(⟨year, 7, 7⟩, "Asalha Puja")]
  else if year = 2010 then [(⟨year, 7, 25⟩, "Asalha Puja")]
  else if year = 2011 then [(⟨year, 7, 15⟩, "Asalha Puja")]
  else if year = 2012 then [(⟨year, 8, 2⟩, "Asalha Puja")]
  else if year = 2013 then [(⟨year, 7, 30⟩, "Asalha Puja")]
  else if year = 2014 then [(⟨year, 7, 13⟩, "Asalha Puja")]
  else if year = 2015 then [(⟨year, 7, 30⟩, "Asalha Puja")]
  else if year = 2016 then [(⟨year, 7, 15⟩, "Asalha Puja")]
  else if year = 2017 then [(⟨year, 7, 9⟩, "Asalha Puja")]
  else if year = 2018 then [(⟨year, 7, 29⟩, "Asalha Puja")]
  else if year = 2019 then [(⟨year, 7, 16⟩, "Asalha Puja")]
  else if year = 2020 then [(⟨year, 7, 5⟩, "Asalha Puja")]
  else if year = 2021 then [(⟨year, 7, 24⟩, "Asalha Puja")]
  else if year = 2022 then [(⟨year, 7, 13⟩, "Asalha Puja")]
  else if year = 2023 then [(⟨year, 7, 3⟩, "Asalha Puja")]
  else if year = 2024 then [(⟨year, 7, 21⟩, "Asalha Puja")]
  else if year = 2025 then [(⟨year, 7, 10⟩, "Asalha Puja")]
  else []

/-- Thailand: hard-coded Beginning of Vassa table, 2006-2020 (lines 611-643). -/
def thailandVassa (year : Int) : List Entry :=
  if year = 2006 then [(⟨year, 7, 12⟩, "Beginning of Vassa")]
  else if year = 2007 then [(⟨year, 7, 31⟩, "Beginning of Vassa")]
  else if year = 2008 then [(⟨year, 7, 19⟩, "Beginning of Vassa")]
  else if year = 2009 then [(⟨year, 7, 8⟩, "Beginning of Vassa")]
  else if year = 2010 then [(⟨year, 7, 27⟩, "Beginning of Vassa")]
  else if year = 2011 then [(⟨year, 7, 16⟩, "Beginning of Vassa")]
  else if year = 2012 then [(⟨year, 8, 3⟩, "Beginning of Vassa")]
  else if year = 2013 then [(⟨year, 7, 23⟩, "Beginning of Vassa")]
  else if year = 2014 then [(⟨year, 7, 13⟩, "Beginning of Vassa")]
  else if year = 2015 then [(⟨year, 8, 1⟩, "Beginning of Vassa")]
  else if year = 2016 then [(⟨year, 7, 20⟩, "Beginning of Vassa")]
  else if year = 2017 then [(⟨year, 7, 9⟩, "Beginning of Vassa")]
  else if year = 2018 then [(⟨year, 7, 28⟩, "Beginning of Vassa")]
  else if year = 2019 then [(⟨year, 7, 17⟩, "Beginning of Vassa")]
  else if year = 2020 then [(⟨year, 7, 6⟩, "Beginning of Vassa")]
  else []

/-- Thailand: remaining fixed-date holidays (lines 646-667). -/
def thailandFixedTail (year : Int) : List Entry :=
  [(⟨year, 8, 12⟩, "The Queen Sirikit's Birthday"),
   (⟨year, 10, 13⟩, "Anniversary for the Death of King Bhumibol Adulyadej"),
   (⟨year, 10, 23⟩, "King Chulalongkorn Day"),
   (⟨year, 12, 5⟩, "King Bhumibol Adulyadej's Birthday Anniversary"),
   (⟨year, 12, 10⟩, "Constitution Day"),
   (⟨year, 12, 31⟩, "New Year's Eve")]

/-- All dictionary writes of `Thailand._populate(year)` in program order;
the `observed` flag of the `HolidayBase` instance is passed in but the
method never consults it (no branch of the source reads `self.observed`). -/
def thailandAsgs (_observed : Bool) (lunar2solar : Lunar2Solar) (year : Int) : List Entry :=
  thailandNewYear year ++ thailandMaghaPujab year ++ thailandChakri year
  ++ thailandSongkran year ++ thailandBuddha lunar2solar year
  ++ thailandCoronation year ++ thailandKingVajiralongkorn year
  ++ thailandAsalhaPuja year ++ thailandVassa year ++ thailandFixedTail year

/-- The `warnings.warn` calls of `Thailand._populate` (lines 562-563 and
609-610): unconditional, two per call. -/
def thailandWarns (_year : Int) : List String :=
  ["We only support Asalha Puja holiday from 2006 to 2025",
   "We only support Vassa holiday from 2006 to 2020"]

/-! ### Philippines._populate -/

/-- Philippines: Maundy Thursday loop, Easter - 3 days (lines 693-697). -/
def philippinesMaundyThursday (year : Int) : List Entry :=
  offsets.flatMap fun offset =>
    let ds := addDays (easter (year + offset) 3) (-3)
    guardW (ds.year == year) (ds, "Maundy Thursday")

/-- Philippines: Good Friday loop, Easter - 2 days (lines 700-704). -/
def philippinesGoodFriday (year : Int) : List Entry :=
  offsets.flatMap fun offset =>
    let ds := addDays (easter (year + offset) 3) (-2)
    guardW (ds.year == year) (ds, "Good Friday")

/-- Philippines: Eid al-Fitr loop (lines 719-725): the day before the
conversion of Shawwal 1, guarded on the shifted date's year. -/
def philippinesEidAlFitr (year : Int) : List Entry :=
  offsets.flatMap fun offset =>
    let islam_year := (from_gregorian (year + offset) 6 15).1
    let g := to_gregorian islam_year 10 1
    let ds := addDays ⟨g.year, g.month, g.day⟩ (-1)
    guardW (ds.year == year) (ds, "Eid al-Fitr")

/-- Philippines: Feast of the Sacrifice loop (lines 728-733). -/
def philippinesSacrifice (year : Int) : List Entry :=
  offsets.flatMap fun offset =>
    let islam_year := (from_gregorian (year + offset) 8 22).1
    let ds := to_gregorian islam_year 12 10
    guardW (ds.year == year) (ds, "Feast of the Sacrifice")

/-- All dictionary writes of `Philippines._populate(year)` in program order. -/
def philippinesAsgs (year : Int) : List Entry :=
  [(⟨year, 1, 1⟩, "New Year's Day")]
  ++ philippinesMaundyThursday year ++ philippinesGoodFriday year
  ++ [(⟨year, 4, 9⟩, "Day of Valor"), (⟨year, 5, 1⟩, "Labor Day"),
      (⟨year, 6, 12⟩, "Independence Day")]
  ++ philippinesEidAlFitr year ++ philippinesSacrifice year
  ++ [(⟨year, 8, 27⟩, "National Heroes' Day"), (⟨year, 11, 30⟩, "Bonifacio Day"),
      (⟨year, 12, 25⟩, "Christmas Day"), (⟨year, 12, 30⟩, "Rizal Day")]

/-! ### Pakistan._populate -/

/-- Pakistan: Feast of the Sacrifice loop over Dhu al-Hijjah 10, 11 and 12
(lines 806-817). -/
def pakistanSacrifice (year : Int) : List Entry :=
  let name := "Feast of the Sacrifice"
  offsets.flatMap fun offset =>
    let islam_year := (from_gregorian (year + offset) 8 22).1
    let g1 := to_gregorian islam_year 12 10
    let g2 := to_gregorian islam_year 12 11
    let g3 := to_gregorian islam_year 12 12
    guardW (g1.year == year) (⟨g1.year, g1.month, g1.day⟩, name)
      ++ guardW (g2.year == year) (⟨g2.year, g2.month, g2.day⟩, name)
      ++ guardW (g3.year == year) (⟨g3.year, g3.month, g3.day⟩, name)

/-- Pakistan: Eid al-Fitr loop over Shawwal 1, 2 and 3 (lines 820-831). -/
def pakistanEidAlFitr (year : Int) : List Entry :=
  let name := "Eid al-Fitr"
  offsets.flatMap fun offset =>
    let islam_year := (from_gregorian (year + offset) 6 15).1
    let g1 := to_gregorian islam_year 10 1
    let g2 := to_gregorian islam_year 10 2
    let g3 := to_gregorian islam_year 10 3
    guardW (g1.year == year) (⟨g1.year, g1.month, g1.day⟩, name)
      ++ guardW (g2.year == year) (⟨g2.year, g2.month, g2.day⟩, name)
      ++ guardW (g3.year == year) (⟨g3.year, g3.month, g3.day⟩, name)

/-- Pakistan: Mawlid loop (lines 835-840). -/
def pakistanMawlid (year : Int) : List Entry :=
  offsets.flatMap fun offset =>
    let islam_year := (from_gregorian (year + offset) 11 20).1
    let ds := to_gregorian islam_year 3 12
    guardW (ds.year == year) (ds, "Mawlid")

/-- Pakistan: Day of Ashura loop over Muharram 10 and 11 (lines 844-852). -/
def pakistanAshura (year : Int) : List Entry :=
  let name := "Day of Ashura"
  offsets.flatMap fun offset =>
    let islam_year := (from_gregorian (year + offset) 10 1).1
    let g1 := to_gregorian islam_year 1 10
    let g2 := to_gregorian islam_year 1 11
    guardW (g1.year == year) (⟨g1.year, g1.month, g1.day⟩, name)
      ++ guardW (g2.year == year) (⟨g2.year, g2.month, g2.day⟩, name)

/-- Pakistan: Shab e Mairaj loop (lines 855-860). -/
def pakistanShabEMairaj (year : Int) : List Entry :=
  offsets.flatMap fun offset =>
    let islam_year := (from_gregorian (year + offset) 4 13).1
    let ds := to_gregorian islam_year 7 27
    guardW (ds.year == year) (ds, "Shab e Mairaj")

/-- All dictionary writes of `Pakistan._populate(year)` in program order. -/
def pakistanAsgs (year : Int) : List Entry :=
  [(⟨year, 2, 5⟩, "Kashmir Solidarity Day"), (⟨year, 3, 23⟩, "Pakistan Day"),
   (⟨year, 5, 1⟩, "Labor Day"), (⟨year, 8, 14⟩, "Independence Day"),
   (⟨year, 11, 9⟩, "Iqbal Day"), (⟨year, 12, 25⟩, "Christmas Day")]
  ++ pakistanSacrifice year ++ pakistanEidAlFitr year ++ pakistanMawlid year
  ++ pakistanAshura year ++ pakistanShabEMairaj year
  ++ [(⟨year, 9, 6⟩, "Defence Day"),
      (⟨year, 9, 11⟩, "Death Anniversary of Quaid-e-Azam")]

/-! ### Belarus._populate -/

/-- Belarus: Commemoration Day, Orthodox Easter + 9 days (lines 966-968). -/
def belarusCommemoration (year : Int) : List Entry :=
  [(addDays (easter year 2) 9, "Commemoration Day")]

/-- All dictionary writes of `Belarus._populate(year)` in program order. -/
def belarusAsgs (year : Int) : List Entry :=
  [(⟨year, 1, 1⟩, "New Year's Day"), (⟨year, 1, 7⟩, "Orthodox Christmas Day"),
   (⟨year, 3, 8⟩, "International Women's Day")]
  ++ belarusCommemoration year
  ++ [(⟨year, 5, 1⟩, "Spring and Labour Day"), (⟨year, 5, 9⟩, "Victory Day"),
      (⟨year, 7, 3⟩, "Independence Day"), (⟨year, 11, 7⟩, "October Revolution Day"),
      (⟨year, 12, 25⟩, "Christmas Day")]

/-! ### Kyrgyzstan._populate -/

/-- All dictionary writes of `Kyrgyzstan._populate(year)` in program order
(lines 423-482); every holiday is a fixed Gregorian date, and the source
writes the Spring and Labour Day entry twice. -/
def kyrgyzstanAsgs (year : Int) : List Entry :=
  [(⟨year, 1, 1⟩, "New Year's Day"),
   (⟨year, 1, 7⟩, "Orthodox Christmas Day"),
   (⟨year, 2, 23⟩, "Fatherland Defender's Day"),
   (⟨year, 3, 8⟩, "International Women's Day"),
   (⟨year, 3, 21⟩, "Nooruz Mairamy"),
   (⟨year, 4, 7⟩, "Day of the People's April Revolution"),
   (⟨year, 5, 1⟩, "Spring and Labour Day"),
   (⟨year, 5, 1⟩, "Spring and Labour Day"),
   (⟨year, 5, 5⟩, "Constitution Day"),
   (⟨year, 5, 9⟩, "Victory Day"),
   (⟨year, 6, 1⟩, "Russia Day"),
   (⟨year, 8, 31⟩, "Independence Day"),
   (⟨year, 11, 7⟩, "Day 1 of History and Commemoration of Ancestors"),
   (⟨year, 11, 8⟩, "Day 2 of History and Commemoration of Ancestors"),
   (⟨year, 12, 31⟩, "New Year's Eve")]

/-! ### Russia._populate -/

/-- All dictionary writes of `Russia._populate(year)` in program order
(lines 890-929); every holiday is a fixed Gregorian date. -/
def russiaAsgs (year : Int) : List Entry :=
  [(⟨year, 1, 1⟩, "New Year's Day"),
   (⟨year, 1, 7⟩, "Orthodox Christmas Day"),
   (⟨year, 12, 25⟩, "Christmas Day"),
   (⟨year, 2, 23⟩, "Defender of the Fatherland Day"),
   (⟨year, 3, 8⟩, "International Women's Day"),
   (⟨year, 8, 22⟩, "National Flag Day"),
   (⟨year, 5, 1⟩, "Spring and Labour Day"),
   (⟨year, 5, 9⟩, "Victory Day"),
   (⟨year, 6, 12⟩, "Russia Day"),
   (⟨year, 11, 4⟩, "Unity Day")]

/-! ### Georgia._populate -/

/-- Georgia: the four Orthodox-Easter-relative movable holidays
(lines 1032-1046): Good Friday at -2 days, Great Saturday at -1, Easter
Sunday at the anchor itself, Easter Monday at +1. -/
def georgiaEasterBlock (year : Int) : List Entry :=
  [(addDays (easter year 2) (-2), "Good Friday"),
   (addDays (easter year 2) (-1), "Great Saturday"),
   (easter year 2, "Easter Sunday"),
   (addDays (easter year 2) 1, "Easter Monday")]

/-- All dictionary writes of `Georgia._populate(year)` in program order
(lines 1007-1074). -/
def georgiaAsgs (year : Int) : List Entry :=
  [(⟨year, 1, 1⟩, "New Year's Day"),
   (⟨year, 1, 2⟩, "Second day of the New Year"),
   (⟨year, 1, 7⟩, "Orthodox Christmas"),
   (⟨year, 1, 19⟩, "Baptism Day of our Lord Jesus Christ"),
   (⟨year, 3, 3⟩, "Mother's Day"),
   (⟨year, 3, 8⟩, "International Women's Day")]
  ++ georgiaEasterBlock year
  ++ [(⟨year, 4, 9⟩, "National Unity Day"),
      (⟨year, 5, 9⟩, "Victory Day"),
      (⟨year, 5, 12⟩, "Saint Andrew the First-Called Day"),
      (⟨year, 5, 26⟩, "Independence Day"),
      (⟨year, 8, 28⟩, "Saint Mary's Day"),
      (⟨year, 10, 14⟩, "Day of Svetitskhoveli Cathedral"),
      (⟨year, 12, 23⟩, "Saint George's Day")]

/-- An arbitrary concrete instantiation of the opaque Chinese lunisolar
converter parameter, used only to state closed concrete evaluations; the
statements below that depend on it are also proved for every converter. -/
def trivialLunar2Solar : Lunar2Solar := fun y m d => ⟨y, m, d⟩

/-! ### Helper lemmas -/

theorem mem_guardW {b : Bool} {e p : Entry} : p ∈ guardW b e ↔ b = true ∧ p = e := by
  unfold guardW
  split <;> simp_all

theorem lookupLast_foldl (l : List Entry) (d : GDate) (init : Option String) :
    l.foldl (fun acc p => if p.1 = d then some p.2 else acc) init
      = match lookupLast l d with | some v => some v | none => init := by
  induction l generalizing init with
  | nil => simp [lookupLast]
  | cons p l ih =>
    simp only [lookupLast, List.foldl_cons] at ih ⊢
    rw [ih, ih (if p.1 = d then some p.2 else none)]
    cases h : l.foldl (fun acc p => if p.1 = d then some p.2 else acc) none <;>
      by_cases hp : p.1 = d <;> simp [hp]

theorem lookupLast_append (l₁ l₂ : List Entry) (d : GDate) :
    lookupLast (l₁ ++ l₂) d
      = match lookupLast l₂ d with | some v => some v | none => lookupLast l₁ d := by
  unfold lookupLast
  rw [List.foldl_append]
  exact lookupLast_foldl l₂ d _

theorem lookupLast_append_self (l : List Entry) (d : GDate) :
    lookupLast (l ++ l) d = lookupLast l d := by
  rw [lookupLast_append]
  cases lookupLast l d <;> rfl

theorem lookupLast_cons (p : Entry) (l : List Entry) (d : GDate) :
    lookupLast (p :: l) d
      = match lookupLast l d with
        | some v => some v
        | none => if p.1 = d then some p.2 else none := by
  unfold lookupLast
  rw [List.foldl_cons]
  exact lookupLast_foldl l d _

theorem lookupLast_eq_none {l : List Entry} {d : GDate}
    (h : ∀ p ∈ l, p.1 ≠ d) : lookupLast l d = none := by
  induction l with
  | nil => rfl
  | cons p l ih =>
    rw [lookupLast_cons, ih (fun q hq => h q (List.mem_cons_of_mem p hq))]
    simp [h p (List.mem_cons_self p l)]

/-! ### Hard-coded year-table lemmas: out-of-range years record
nothing, in-range years record the tabulated entry. -/

theorem indonesiaNyepi_out {year : Int} (h : year < 2009 ∨ 2019 < year) :
    indonesiaNyepi year = [] := by
  delta indonesiaNyepi
  repeat rw [if_neg (by omega)]

theorem indonesiaNyepi_in {year : Int} (h1 : 2009 ≤ year) (h2 : year ≤ 2019) :
    ∃ m d : Int, indonesiaNyepi year = [(⟨year, m, d⟩, "Day of Silence/ Nyepi")] := by
  rcases (by omega :
    year = 2009 ∨ year = 2010 ∨ year = 2011 ∨ year = 2012 ∨ year = 2013 ∨ year = 2014 ∨ year = 2015 ∨ year = 2016 ∨ year = 2017 ∨ year = 2018 ∨ year = 2019) with
    rfl | rfl | rfl | rfl | rfl | rfl | rfl | rfl | rfl | rfl | rfl <;>
    exact ⟨_, _, rfl⟩

theorem indiaDiwaliHoli_out {year : Int} (h : year < 2010 ∨ 2030 < year) :
    indiaDiwaliHoli year = [] := by
  delta indiaDiwaliHoli
  repeat rw [if_neg (by omega)]

theorem indiaDiwaliHoli_in {year : Int} (h1 : 2010 ≤ year) (h2 : year ≤ 2030) :
    ∃ m1 d1 m2 d2 : Int, indiaDiwaliHoli year = [(⟨year, m1, d1⟩, "Diwali"), (⟨year, m2, d2⟩, "Holi")] := by
  rcases (by omega :
    year = 2010 ∨ year = 2011 ∨ year = 2012 ∨ year = 2013 ∨ year = 2014 ∨ year = 2015 ∨ year = 2016 ∨ year = 2017 ∨ year = 2018 ∨ year = 2019 ∨ year = 2020 ∨ year = 2021 ∨ year = 2022 ∨ year = 2023 ∨ year = 2024 ∨ year = 2025 ∨ year = 2026 ∨ year = 2027 ∨ year = 2028 ∨ year = 2029 ∨ year = 2030) with
    rfl | rfl | rfl | rfl | rfl | rfl | rfl | rfl | rfl | rfl | rfl | rfl | rfl | rfl | rfl | rfl | rfl | rfl | rfl | rfl | rfl <;>
    exact ⟨_, _, _, _, rfl⟩

theorem thailandMaghaPujab_out {year : Int} (h : year < 2016 ∨ 2019 < year) :
    thailandMaghaPujab year = [] := by
  delta thailandMaghaPujab
  repeat rw [if_neg (by omega)]

theorem thailandMaghaPujab_in {year : Int} (h1 : 2016 ≤ year) (h2 : year ≤ 2019) :
    ∃ m d : Int, thailandMaghaPujab year = [(⟨year, m, d⟩, "Magha Pujab/Makha Bucha")] := by
  rcases (by omega :
    year = 2016 ∨ year = 2017 ∨ year = 2018 ∨ year = 2019) with
    rfl | rfl | rfl | rfl <;>
    exact ⟨_, _, rfl⟩

theorem thailandAsalhaPuja_out {year : Int} (h : year < 2006 ∨ 2025 < year) :
    thailandAsalhaPuja year = [] := by
  delta thailandAsalhaPuja
  repeat rw [if_neg (by omega)]

theorem thailandAsalhaPuja_in {year : Int} (h1 : 2006 ≤ year) (h2 : year ≤ 2025) :
    ∃ m d : Int, thailandAsalhaPuja year = [(⟨year, m, d⟩, "Asalha Puja")] := by
  rcases (by omega :
    year = 2006 ∨ year = 2007 ∨ year = 2008 ∨ year = 2009 ∨ year = 2010 ∨ year = 2011 ∨ year = 2012 ∨ year = 2013 ∨ year = 2014 ∨ year = 2015 ∨ year = 2016 ∨ year = 2017 ∨ year = 2018 ∨ year = 2019 ∨ year = 2020 ∨ year = 2021 ∨ year = 2022 ∨ year = 2023 ∨ year = 2024 ∨ year = 2025) with
    rfl | rfl | rfl | rfl | rfl | rfl | rfl | rfl | rfl | rfl | rfl | rfl | rfl | rfl | rfl | rfl | rfl | rfl | rfl | rfl <;>
    exact ⟨_, _, rfl⟩

theorem thailandVassa_out {year : Int} (h : year < 2006 ∨ 2020 < year) :
    thailandVassa year = [] := by
  delta thailandVassa
  repeat rw [if_neg (by omega)]

theorem thailandVassa_in {year : Int} (h1 : 2006 ≤ year) (h2 : year ≤ 2020) :
    ∃ m d : Int, thailandVassa year = [(⟨year, m, d⟩, "Beginning of Vassa")] := by
  rcases (by omega :
    year = 2006 ∨ year = 2007 ∨ year = 2008 ∨ year = 2009 ∨ year = 2010 ∨ year = 2011 ∨ year = 2012 ∨ year = 2013 ∨ year = 2014 ∨ year = 2015 ∨ year = 2016 ∨ year = 2017 ∨ year = 2018 ∨ year = 2019 ∨ year = 2020) with
    rfl | rfl | rfl | rfl | rfl | rfl | rfl | rfl | rfl | rfl | rfl | rfl | rfl | rfl | rfl <;>
    exact ⟨_, _, rfl⟩

/-! ### Year-guard lemmas: every entry a foreign-calendar resolution loop
records carries the populated year (claim C2 machinery). -/

theorem year_indonesiaChineseNewYear {l2s : Lunar2Solar} {year : Int} {p : Entry}
    (h : p ∈ indonesiaChineseNewYear l2s year) : p.1.year = year := by
  simp only [indonesiaChineseNewYear, List.mem_flatMap, mem_guardW, beq_iff_eq] at h
  obtain ⟨o, -, hy, rfl⟩ := h
  exact hy

theorem year_indonesiaAscensionProphet {year : Int} {p : Entry}
    (h : p ∈ indonesiaAscensionProphet year) : p.1.year = year := by
  simp only [indonesiaAscensionProphet, List.mem_flatMap, mem_guardW, beq_iff_eq] at h
  obtain ⟨o, -, hy, rfl⟩ := h
  exact hy

theorem year_indonesiaBuddha {l2s : Lunar2Solar} {year : Int} {p : Entry}
    (h : p ∈ indonesiaBuddha l2s year) : p.1.year = year := by
  simp only [indonesiaBuddha, List.mem_flatMap, mem_guardW, beq_iff_eq] at h
  obtain ⟨o, -, hy, rfl⟩ := h
  exact hy

theorem year_indonesiaEidAlFitr {year : Int} {p : Entry}
    (h : p ∈ indonesiaEidAlFitr year) : p.1.year = year := by
  simp only [indonesiaEidAlFitr, List.mem_flatMap, List.mem_append, mem_guardW,
    beq_iff_eq] at h
  obtain ⟨o, -, h⟩ := h
  rcases h with ⟨hy, rfl⟩ | ⟨hy, rfl⟩ <;> exact hy

theorem year_indonesiaSacrifice {year : Int} {p : Entry}
    (h : p ∈ indonesiaSacrifice year) : p.1.year = year := by
  simp only [indonesiaSacrifice, List.mem_flatMap, mem_guardW, beq_iff_eq] at h
  obtain ⟨o, -, hy, rfl⟩ := h
  exact hy

theorem year_indonesiaIslamicNewYear {year : Int} {p : Entry}
    (h : p ∈ indonesiaIslamicNewYear year) : p.1.year = year := by
  simp only [indonesiaIslamicNewYear, List.mem_flatMap, mem_guardW, beq_iff_eq] at h
  obtain ⟨o, -, hy, rfl⟩ := h
  exact hy

theorem year_indonesiaBirthProphet {year : Int} {p : Entry}
    (h : p ∈ indonesiaBirthProphet year) : p.1.year = year := by
  simp only [indonesiaBirthProphet, List.mem_flatMap, mem_guardW, beq_iff_eq] at h
  obtain ⟨o, -, hy, rfl⟩ := h
  exact hy

theorem year_indiaAshura {year : Int} {p : Entry}
    (h : p ∈ indiaAshura year) : p.1.year = year := by
  simp only [indiaAshura, List.mem_flatMap, mem_guardW, beq_iff_eq] at h
  obtain ⟨o, -, hy, rfl⟩ := h
  exact hy

theorem year_indiaMawlid {year : Int} {p : Entry}
    (h : p ∈ indiaMawlid year) : p.1.year = year := by
  simp only [indiaMawlid, List.mem_flatMap, mem_guardW, beq_iff_eq] at h
  obtain ⟨o, -, hy, rfl⟩ := h
  exact hy

theorem year_indiaEidAlFitr {year : Int} {p : Entry}
    (h : p ∈ indiaEidAlFitr year) : p.1.year = year := by
  simp only [indiaEidAlFitr, List.mem_flatMap, List.mem_append, mem_guardW,
    beq_iff_eq] at h
  obtain ⟨o, -, h⟩ := h
  rcases h with ⟨hy, rfl⟩ | ⟨hy, rfl⟩ <;> exact hy

theorem year_indiaSacrifice {year : Int} {p : Entry}
    (h : p ∈ indiaSacrifice year) : p.1.year = year := by
  simp only [indiaSacrifice, List.mem_flatMap, mem_guardW, beq_iff_eq] at h
  obtain ⟨o, -, hy, rfl⟩ := h
  exact hy

theorem year_philippinesEidAlFitr {year : Int} {p : Entry}
    (h : p ∈ philippinesEidAlFitr year) : p.1.year = year := by
  simp only [philippinesEidAlFitr, List.mem_flatMap, mem_guardW, beq_iff_eq] at h
  obtain ⟨o, -, hy, rfl⟩ := h
  exact hy

theorem year_philippinesSacrifice {year : Int} {p : Entry}
    (h : p ∈ philippinesSacrifice year) : p.1.year = year := by
  simp only [philippinesSacrifice, List.mem_flatMap, mem_guardW, beq_iff_eq] at h
  obtain ⟨o, -, hy, rfl⟩ := h
  exact hy

theorem year_pakistanSacrifice {year : Int} {p : Entry}
    (h : p ∈ pakistanSacrifice year) : p.1.year = year := by
  simp only [pakistanSacrifice, List.mem_flatMap, List.mem_append, mem_guardW,
    beq_iff_eq] at h
  obtain ⟨o, -, h⟩ := h
  rcases h with (⟨hy, rfl⟩ | ⟨hy, rfl⟩) | ⟨hy, rfl⟩ <;> exact hy

theorem year_pakistanEidAlFitr {year : Int} {p : Entry}
    (h : p ∈ pakistanEidAlFitr year) : p.1.year = year := by
  simp only [pakistanEidAlFitr, List.mem_flatMap, List.mem_append, mem_guardW,
    beq_iff_eq] at h
  obtain ⟨o, -, h⟩ := h
  rcases h with (⟨hy, rfl⟩ | ⟨hy, rfl⟩) | ⟨hy, rfl⟩ <;> exact hy

theorem year_pakistanMawlid {year : Int} {p : Entry}
    (h : p ∈ pakistanMawlid year) : p.1.year = year := by
  simp only [pakistanMawlid, List.mem_flatMap, mem_guardW, beq_iff_eq] at h
  obtain ⟨o, -, hy, rfl⟩ := h
  exact hy

theorem year_pakistanAshura {year : Int} {p : Entry}
    (h : p ∈ pakistanAshura year) : p.1.year = year := by
  simp only [pakistanAshura, List.mem_flatMap, List.mem_append, mem_guardW,
    beq_iff_eq] at h
  obtain ⟨o, -, h⟩ := h
  rcases h with ⟨hy, rfl⟩ | ⟨hy, rfl⟩ <;> exact hy

theorem year_pakistanShabEMairaj {year : Int} {p : Entry}
    (h : p ∈ pakistanShabEMairaj year) : p.1.year = year := by
  simp only [pakistanShabEMairaj, List.mem_flatMap, mem_guardW, beq_iff_eq] at h
  obtain ⟨o, -, hy, rfl⟩ := h
  exact hy

theorem year_thailandBuddha {l2s : Lunar2Solar} {year : Int} {p : Entry}
    (h : p ∈ thailandBuddha l2s year) : p.1.year = year := by
  simp only [thailandBuddha, List.mem_flatMap, mem_guardW, beq_iff_eq] at h
  obtain ⟨o, -, hy, rfl⟩ := h
  exact hy


/-! ### Name lemmas: which holiday name each block writes. -/

theorem snd_indonesiaChineseNewYear {l2s : Lunar2Solar} {year : Int} {p : Entry}
    (h : p ∈ indonesiaChineseNewYear l2s year) : p.2 = "Chinese New Year" := by
  simp only [indonesiaChineseNewYear, List.mem_flatMap, mem_guardW] at h
  obtain ⟨o, -, -, rfl⟩ := h
  rfl

theorem snd_indonesiaNyepi {year : Int} {p : Entry}
    (h : p ∈ indonesiaNyepi year) : p.2 = "Day of Silence/ Nyepi" := by
  by_cases hin : 2009 ≤ year ∧ year ≤ 2019
  · obtain ⟨m, d, he⟩ := indonesiaNyepi_in hin.1 hin.2
    rw [he, List.mem_singleton] at h
    subst h
    rfl
  · rw [indonesiaNyepi_out (by omega)] at h
    exact absurd h (List.not_mem_nil p)

theorem snd_indonesiaAscensionProphet {year : Int} {p : Entry}
    (h : p ∈ indonesiaAscensionProphet year) : p.2 = "Ascension of the Prophet" := by
  simp only [indonesiaAscensionProphet, List.mem_flatMap, mem_guardW] at h
  obtain ⟨o, -, -, rfl⟩ := h
  rfl

theorem snd_indonesiaLaborDay {year : Int} {p : Entry}
    (h : p ∈ indonesiaLaborDay year) : p.2 = "Labor Day" := by
  simp only [indonesiaLaborDay, List.mem_singleton] at h
  subst h
  rfl

theorem snd_indonesiaAscensionJesus {year : Int} {p : Entry}
    (h : p ∈ indonesiaAscensionJesus year) : p.2 = "Ascension of Jesus" := by
  simp only [indonesiaAscensionJesus, List.mem_flatMap, mem_guardW] at h
  obtain ⟨o, -, -, rfl⟩ := h
  rfl

theorem snd_indonesiaBuddha {l2s : Lunar2Solar} {year : Int} {p : Entry}
    (h : p ∈ indonesiaBuddha l2s year) : p.2 = "Buddha's Birthday" := by
  simp only [indonesiaBuddha, List.mem_flatMap, mem_guardW] at h
  obtain ⟨o, -, -, rfl⟩ := h
  rfl

theorem snd_indonesiaPancasila {year : Int} {p : Entry}
    (h : p ∈ indonesiaPancasila year) : p.2 = "Pancasila Day" := by
  delta indonesiaPancasila at h
  by_cases hc : year ≥ 2017
  · rw [if_pos hc, List.mem_singleton] at h
    subst h
    rfl
  · rw [if_neg hc] at h
    exact absurd h (List.not_mem_nil p)

theorem snd_indonesiaEidAlFitr {year : Int} {p : Entry}
    (h : p ∈ indonesiaEidAlFitr year) : p.2 = "Eid al-Fitr" := by
  simp only [indonesiaEidAlFitr, List.mem_flatMap, List.mem_append, mem_guardW] at h
  obtain ⟨o, -, h⟩ := h
  rcases h with ⟨-, rfl⟩ | ⟨-, rfl⟩ <;> rfl

theorem snd_indonesiaIndependence {year : Int} {p : Entry}
    (h : p ∈ indonesiaIndependence year) : p.2 = "Independence Day" := by
  simp only [indonesiaIndependence, List.mem_singleton] at h
  subst h
  rfl

theorem snd_indonesiaSacrifice {year : Int} {p : Entry}
    (h : p ∈ indonesiaSacrifice year) : p.2 = "Feast of the Sacrifice" := by
  simp only [indonesiaSacrifice, List.mem_flatMap, mem_guardW] at h
  obtain ⟨o, -, -, rfl⟩ := h
  rfl

theorem snd_indonesiaIslamicNewYear {year : Int} {p : Entry}
    (h : p ∈ indonesiaIslamicNewYear year) : p.2 = "Islamic New Year" := by
  simp only [indonesiaIslamicNewYear, List.mem_flatMap, mem_guardW] at h
  obtain ⟨o, -, -, rfl⟩ := h
  rfl

theorem snd_indonesiaBirthProphet {year : Int} {p : Entry}
    (h : p ∈ indonesiaBirthProphet year) : p.2 = "Birth of the Prophet" := by
  simp only [indonesiaBirthProphet, List.mem_flatMap, mem_guardW] at h
  obtain ⟨o, -, -, rfl⟩ := h
  rfl

theorem snd_indonesiaChristmas {year : Int} {p : Entry}
    (h : p ∈ indonesiaChristmas year) : p.2 = "Christmas" := by
  simp only [indonesiaChristmas, List.mem_singleton] at h
  subst h
  rfl

theorem snd_indonesiaRest {l2s : Lunar2Solar} {year : Int} {p : Entry}
    (h : p ∈ indonesiaRest l2s year) : p.2 ≠ "New Year's Day" := by
  simp only [indonesiaRest, List.append_assoc, List.mem_append] at h
  rcases h with h | h | h | h | h | h | h | h | h | h | h | h | h
  · rw [snd_indonesiaChineseNewYear h]; decide
  · rw [snd_indonesiaNyepi h]; decide
  · rw [snd_indonesiaAscensionProphet h]; decide
  · rw [snd_indonesiaLaborDay h]; decide
  · rw [snd_indonesiaAscensionJesus h]; decide
  · rw [snd_indonesiaBuddha h]; decide
  · rw [snd_indonesiaPancasila h]; decide
  · rw [snd_indonesiaEidAlFitr h]; decide
  · rw [snd_indonesiaIndependence h]; decide
  · rw [snd_indonesiaSacrifice h]; decide
  · rw [snd_indonesiaIslamicNewYear h]; decide
  · rw [snd_indonesiaBirthProphet h]; decide
  · rw [snd_indonesiaChristmas h]; decide

theorem snd_thailandNewYear {year : Int} {p : Entry}
    (h : p ∈ thailandNewYear year) : p.2 = "New Year's Day" := by
  simp only [thailandNewYear, List.mem_singleton] at h
  subst h
  rfl

theorem snd_thailandMaghaPujab {year : Int} {p : Entry}
    (h : p ∈ thailandMaghaPujab year) : p.2 = "Magha Pujab/Makha Bucha" := by
  by_cases hin : 2016 ≤ year ∧ year ≤ 2019
  · obtain ⟨m, d, he⟩ := thailandMaghaPujab_in hin.1 hin.2
    rw [he, List.mem_singleton] at h
    subst h
    rfl
  · rw [thailandMaghaPujab_out (by omega)] at h
    exact absurd h (List.not_mem_nil p)

theorem snd_thailandSongkran {year : Int} {p : Entry}
    (h : p ∈ thailandSongkran year) : p.2 = "Songkran Festival" := by
  simp only [thailandSongkran, List.mem_singleton] at h
  subst h
  rfl

theorem snd_thailandBuddha {l2s : Lunar2Solar} {year : Int} {p : Entry}
    (h : p ∈ thailandBuddha l2s year) : p.2 = "Buddha's Birthday" := by
  simp only [thailandBuddha, List.mem_flatMap, mem_guardW] at h
  obtain ⟨o, -, -, rfl⟩ := h
  rfl

theorem snd_thailandCoronation {year : Int} {p : Entry}
    (h : p ∈ thailandCoronation year) : p.2 = "Coronation Day" := by
  delta thailandCoronation at h
  by_cases hc : year < 2017
  · rw [if_pos hc, List.mem_singleton] at h
    subst h
    rfl
  · rw [if_neg hc] at h
    exact absurd h (List.not_mem_nil p)

theorem snd_thailandKingVajiralongkorn {year : Int} {p : Entry}
    (h : p ∈ thailandKingVajiralongkorn year) :
    p.2 = "King Maha Vajiralongkorn's Birthday" := by
  simp only [thailandKingVajiralongkorn, List.mem_singleton] at h
  subst h
  rfl

theorem snd_thailandAsalhaPuja {year : Int} {p : Entry}
    (h : p ∈ thailandAsalhaPuja year) : p.2 = "Asalha Puja" := by
  by_cases hin : 2006 ≤ year ∧ year ≤ 2025
  · obtain ⟨m, d, he⟩ := thailandAsalhaPuja_in hin.1 hin.2
    rw [he, List.mem_singleton] at h
    subst h
    rfl
  · rw [thailandAsalhaPuja_out (by omega)] at h
    exact absurd h (List.not_mem_nil p)

theorem snd_thailandVassa {year : Int} {p : Entry}
    (h : p ∈ thailandVassa year) : p.2 = "Beginning of Vassa" := by
  by_cases hin : 2006 ≤ year ∧ year ≤ 2020
  · obtain ⟨m, d, he⟩ := thailandVassa_in hin.1 hin.2
    rw [he, List.mem_singleton] at h
    subst h
    rfl
  · rw [thailandVassa_out (by omega)] at h
    exact absurd h (List.not_mem_nil p)

theorem snd_thailandFixedTail {year : Int} {p : Entry}
    (h : p ∈ thailandFixedTail year) : p.2 ≠ "Chakri Memorial Day" := by
  simp only [thailandFixedTail, List.mem_cons, List.not_mem_nil, or_false] at h
  rcases h with rfl | rfl | rfl | rfl | rfl | rfl <;> simp

/-! ### Easter-relative lemmas: every entry an Easter-offset loop records is
the offset applied to a Western Easter of an adjacent year, and lands in the
populated year (claim C3 machinery). -/

theorem easterRel_indiaPalmSunday {year : Int} {p : Entry}
    (h : p ∈ indiaPalmSunday year) :
    (∃ k ∈ offsets, p.1 = addDays (easter (year + k) 3) (-7)) ∧ p.1.year = year := by
  simp only [indiaPalmSunday, List.mem_flatMap, mem_guardW, beq_iff_eq] at h
  obtain ⟨o, ho, hy, rfl⟩ := h
  exact ⟨⟨o, ho, rfl⟩, hy⟩

theorem easterRel_indiaMaundyThursday {year : Int} {p : Entry}
    (h : p ∈ indiaMaundyThursday year) :
    (∃ k ∈ offsets, p.1 = addDays (easter (year + k) 3) (-3)) ∧ p.1.year = year := by
  simp only [indiaMaundyThursday, List.mem_flatMap, mem_guardW, beq_iff_eq] at h
  obtain ⟨o, ho, hy, rfl⟩ := h
  exact ⟨⟨o, ho, rfl⟩, hy⟩

theorem easterRel_indiaGoodFriday {year : Int} {p : Entry}
    (h : p ∈ indiaGoodFriday year) :
    (∃ k ∈ offsets, p.1 = addDays (easter (year + k) 3) (-2)) ∧ p.1.year = year := by
  simp only [indiaGoodFriday, List.mem_flatMap, mem_guardW, beq_iff_eq] at h
  obtain ⟨o, ho, hy, rfl⟩ := h
  exact ⟨⟨o, ho, rfl⟩, hy⟩

theorem easterRel_indiaEasterSunday {year : Int} {p : Entry}
    (h : p ∈ indiaEasterSunday year) :
    (∃ k ∈ offsets, p.1 = easter (year + k) 3) ∧ p.1.year = year := by
  simp only [indiaEasterSunday, List.mem_flatMap, mem_guardW, beq_iff_eq] at h
  obtain ⟨o, ho, hy, rfl⟩ := h
  exact ⟨⟨o, ho, rfl⟩, hy⟩

theorem easterRel_indiaPentecost {year : Int} {p : Entry}
    (h : p ∈ indiaPentecost year) :
    (∃ k ∈ offsets, p.1 = addDays (easter (year + k) 3) 49) ∧ p.1.year = year := by
  simp only [indiaPentecost, List.mem_flatMap, mem_guardW, beq_iff_eq] at h
  obtain ⟨o, ho, hy, rfl⟩ := h
  exact ⟨⟨o, ho, rfl⟩, hy⟩

theorem easterRel_philippinesMaundyThursday {year : Int} {p : Entry}
    (h : p ∈ philippinesMaundyThursday year) :
    (∃ k ∈ offsets, p.1 = addDays (easter (year + k) 3) (-3)) ∧ p.1.year = year := by
  simp only [philippinesMaundyThursday, List.mem_flatMap, mem_guardW, beq_iff_eq] at h
  obtain ⟨o, ho, hy, rfl⟩ := h
  exact ⟨⟨o, ho, rfl⟩, hy⟩

theorem easterRel_philippinesGoodFriday {year : Int} {p : Entry}
    (h : p ∈ philippinesGoodFriday year) :
    (∃ k ∈ offsets, p.1 = addDays (easter (year + k) 3) (-2)) ∧ p.1.year = year := by
  simp only [philippinesGoodFriday, List.mem_flatMap, mem_guardW, beq_iff_eq] at h
  obtain ⟨o, ho, hy, rfl⟩ := h
  exact ⟨⟨o, ho, rfl⟩, hy⟩

theorem easterRel_indonesiaAscensionJesus {year : Int} {p : Entry}
    (h : p ∈ indonesiaAscensionJesus year) :
    (∃ k ∈ offsets, p.1 = addDays (easter (year + k) 3) 39) ∧ p.1.year = year := by
  simp only [indonesiaAscensionJesus, List.mem_flatMap, mem_guardW, beq_iff_eq] at h
  obtain ⟨o, ho, hy, rfl⟩ := h
  exact ⟨⟨o, ho, rfl⟩, hy⟩

/-! ### Claim theorems -/

/-- Claim C2: every Gregorian date recorded by a foreign-calendar (lunar or
Hijri) resolution loop — the `for offset in range(-1, 2, 1)` search with its
year-equality guard — has year equal to the populated year; this holds for
every such loop in the module and for every lunar converter. -/
theorem foreignResolutionStaysInYear :
    ∀ (l2s : Lunar2Solar) (year : Int) (p : Entry),
      (p ∈ indonesiaChineseNewYear l2s year → p.1.year = year) ∧
      (p ∈ indonesiaAscensionProphet year → p.1.year = year) ∧
      (p ∈ indonesiaBuddha l2s year → p.1.year = year) ∧
      (p ∈ indonesiaEidAlFitr year → p.1.year = year) ∧
      (p ∈ indonesiaSacrifice year → p.1.year = year) ∧
      (p ∈ indonesiaIslamicNewYear year → p.1.year = year) ∧
      (p ∈ indonesiaBirthProphet year → p.1.year = year) ∧
      (p ∈ indiaAshura year → p.1.year = year) ∧
      (p ∈ indiaMawlid year → p.1.year = year) ∧
      (p ∈ indiaEidAlFitr year → p.1.year = year) ∧
      (p ∈ indiaSacrifice year → p.1.year = year) ∧
      (p ∈ philippinesEidAlFitr year → p.1.year = year) ∧
      (p ∈ philippinesSacrifice year → p.1.year = year) ∧
      (p ∈ pakistanSacrifice year → p.1.year = year) ∧
      (p ∈ pakistanEidAlFitr year → p.1.year = year) ∧
      (p ∈ pakistanMawlid year → p.1.year = year) ∧
      (p ∈ pakistanAshura year → p.1.year = year) ∧
      (p ∈ pakistanShabEMairaj year → p.1.year = year) ∧
      (p ∈ thailandBuddha l2s year → p.1.year = year) :=
  fun _ _ _ =>
    ⟨year_indonesiaChineseNewYear, year_indonesiaAscensionProphet,
     year_indonesiaBuddha, year_indonesiaEidAlFitr, year_indonesiaSacrifice,
     year_indonesiaIslamicNewYear, year_indonesiaBirthProphet,
     year_indiaAshura, year_indiaMawlid, year_indiaEidAlFitr,
     year_indiaSacrifice, year_philippinesEidAlFitr, year_philippinesSacrifice,
     year_pakistanSacrifice, year_pakistanEidAlFitr, year_pakistanMawlid,
     year_pakistanAshura, year_pakistanShabEMairaj, year_thailandBuddha⟩

/-- Claim C2 witness: `India._populate(2019)` records the Eid al-Fitr entry
2019-06-05, and the general theorem places it in year 2019. -/
theorem foreignResolutionStaysInYear_witness :
    ((⟨2019, 6, 5⟩, "Eid al-Fitr") : Entry).1.year = 2019 :=
  ((foreignResolutionStaysInYear trivialLunar2Solar 2019
      (⟨2019, 6, 5⟩, "Eid al-Fitr")).2.2.2.2.2.2.2.2.2.1) (by decide)

/-- Claim C3: every date an Easter-relative definition records for a year is
`easter(year + k) + offsetDays` for some `k` in `{-1, 0, +1}` (Western
Easter, method 3) and lands in the populated year, for each Easter-relative
loop of the module (Palm Sunday -7, Maundy Thursday -3, Good Friday -2,
Easter Sunday 0, Pentecost +49, Ascension of Jesus +39). -/
theorem easterRelativeRoundTrip :
    ∀ (year : Int) (p : Entry),
      (p ∈ indiaPalmSunday year →
        (∃ k ∈ offsets, p.1 = addDays (easter (year + k) 3) (-7)) ∧ p.1.year = year) ∧
      (p ∈ indiaMaundyThursday year →
        (∃ k ∈ offsets, p.1 = addDays (easter (year + k) 3) (-3)) ∧ p.1.year = year) ∧
      (p ∈ indiaGoodFriday year →
        (∃ k ∈ offsets, p.1 = addDays (easter (year + k) 3) (-2)) ∧ p.1.year = year) ∧
      (p ∈ indiaEasterSunday year →
        (∃ k ∈ offsets, p.1 = easter (year + k) 3) ∧ p.1.year = year) ∧
      (p ∈ indiaPentecost year →
        (∃ k ∈ offsets, p.1 = addDays (easter (year + k) 3) 49) ∧ p.1.year = year) ∧
      (p ∈ philippinesMaundyThursday year →
        (∃ k ∈ offsets, p.1 = addDays (easter (year + k) 3) (-3)) ∧ p.1.year = year) ∧
      (p ∈ philippinesGoodFriday year →
        (∃ k ∈ offsets, p.1 = addDays (easter (year + k) 3) (-2)) ∧ p.1.year = year) ∧
      (p ∈ indonesiaAscensionJesus year →
        (∃ k ∈ offsets, p.1 = addDays (easter (year + k) 3) 39) ∧ p.1.year = year) :=
  fun _ _ =>
    ⟨easterRel_indiaPalmSunday, easterRel_indiaMaundyThursday,
     easterRel_indiaGoodFriday, easterRel_indiaEasterSunday,
     easterRel_indiaPentecost, easterRel_philippinesMaundyThursday,
     easterRel_philippinesGoodFriday, easterRel_indonesiaAscensionJesus⟩

/-- Claim C3 witness: India records Good Friday 2019 on 2019-04-19, which is
Western Easter of an adjacent year (here 2019 itself) minus 2 days, in 2019. -/
theorem easterRelativeRoundTrip_witness :
    (∃ k ∈ offsets, ((⟨2019, 4, 19⟩, "Good Friday") : Entry).1
        = addDays (easter (2019 + k) 3) (-2)) ∧
    ((⟨2019, 4, 19⟩, "Good Friday") : Entry).1.year = 2019 :=
  (easterRelativeRoundTrip 2019 (⟨2019, 4, 19⟩, "Good Friday")).2.2.1 (by decide)

/-- Claim C4: populating the same (country, year) twice (the second run
re-performing the same dictionary writes over the already-populated dict)
yields the identical date-to-name mapping, for every country class the
module defines — Indonesia, India, Kyrgyzstan, Thailand, Philippines,
Pakistan, Russia, Belarus and Georgia (the ISO-code alias classes inherit
these populate methods unchanged, and TU aliases the external
holidays.Turkey class, whose table is not part of this module) — for every
`observed` flag, every lunar converter and every year; in this pure
embedding the write sequence itself is a function of those inputs, so the
population is deterministic as well. -/
theorem populateIdempotent :
    ∀ (observed : Bool) (l2s : Lunar2Solar) (year : Int) (d : GDate),
      lookupLast (indonesiaAsgs observed l2s year ++ indonesiaAsgs observed l2s year) d
          = lookupLast (indonesiaAsgs observed l2s year) d ∧
      lookupLast (indiaAsgs year ++ indiaAsgs year) d = lookupLast (indiaAsgs year) d ∧
      lookupLast (kyrgyzstanAsgs year ++ kyrgyzstanAsgs year) d
          = lookupLast (kyrgyzstanAsgs year) d ∧
      lookupLast (thailandAsgs observed l2s year ++ thailandAsgs observed l2s year) d
          = lookupLast (thailandAsgs observed l2s year) d ∧
      lookupLast (philippinesAsgs year ++ philippinesAsgs year) d
          = lookupLast (philippinesAsgs year) d ∧
      lookupLast (pakistanAsgs year ++ pakistanAsgs year) d
          = lookupLast (pakistanAsgs year) d ∧
      lookupLast (russiaAsgs year ++ russiaAsgs year) d
          = lookupLast (russiaAsgs year) d ∧
      lookupLast (belarusAsgs year ++ belarusAsgs year) d
          = lookupLast (belarusAsgs year) d ∧
      lookupLast (georgiaAsgs year ++ georgiaAsgs year) d
          = lookupLast (georgiaAsgs year) d :=
  fun _ _ _ d =>
    ⟨lookupLast_append_self _ d, lookupLast_append_self _ d,
     lookupLast_append_self _ d, lookupLast_append_self _ d,
     lookupLast_append_self _ d, lookupLast_append_self _ d,
     lookupLast_append_self _ d, lookupLast_append_self _ d,
     lookupLast_append_self _ d⟩

/-- Claim C7: Belarus records "Commemoration Day" for 2024 at Orthodox
Easter 2024 (May 5) plus 9 days, i.e. 2024-05-14; the Western Easter
anchor (March 31) would give 2024-04-09 instead. -/
theorem commemorationDayOrthodox2024 :
    (addDays (easter 2024 2) 9, "Commemoration Day") ∈ belarusAsgs 2024 ∧
    addDays (easter 2024 2) 9 = ⟨2024, 5, 14⟩ ∧
    easter 2024 2 = ⟨2024, 5, 5⟩ ∧
    easter 2024 3 = ⟨2024, 3, 31⟩ ∧
    addDays (easter 2024 3) 9 = ⟨2024, 4, 9⟩ := by
  decide

/-- Claim C1: evaluation at the failing input. For 2019 (Hijri year 1440)
Shawwal 1 and 2 convert to the consecutive dates 2019-06-05 and 2019-06-06,
but `Indonesia._populate` records the day-2 date twice (the source writes
`date(y1, m2, d2)` under the `y1 == year` guard) and never records the
in-year day-1 date; Pakistan's three-day loop records the consecutive
conversions as the claim describes. -/
theorem indonesiaEidDropsFirstDay :
    (from_gregorian 2019 6 15).1 = 1440 ∧
    to_gregorian 1440 10 1 = ⟨2019, 6, 5⟩ ∧
    to_gregorian 1440 10 2 = ⟨2019, 6, 6⟩ ∧
    indonesiaEidAlFitr 2019
        = [(⟨2019, 6, 6⟩, "Eid al-Fitr"), (⟨2019, 6, 6⟩, "Eid al-Fitr")] ∧
    pakistanEidAlFitr 2019
        = [(⟨2019, 6, 5⟩, "Eid al-Fitr"), (⟨2019, 6, 6⟩, "Eid al-Fitr"),
           (⟨2019, 6, 7⟩, "Eid al-Fitr")] := by
  decide

/-- Claim C6: evaluation at the failing input. India's Eid al-Fitr loop for
2019 records exactly the two consecutive Gregorian dates 2019-06-05 and
2019-06-06 (both in 2019), as the claim demands; Indonesia's loop for the
same definition records only the single date 2019-06-06, twice. -/
theorem eid2019TwoConsecutiveDates :
    indiaEidAlFitr 2019
        = [(⟨2019, 6, 5⟩, "Eid al-Fitr"), (⟨2019, 6, 6⟩, "Eid al-Fitr")] ∧
    gregorian_to_jdn 2019 6 6 = gregorian_to_jdn 2019 6 5 + 1 ∧
    indonesiaEidAlFitr 2019
        = [(⟨2019, 6, 6⟩, "Eid al-Fitr"), (⟨2019, 6, 6⟩, "Eid al-Fitr")] := by
  decide

/-- Claim C5 counterexample: the year 2015 lies inside the Nyepi table's
supported range 2009-2019, yet `Indonesia._populate(2015)` still issues its
`warnings.warn` call — the diagnostic is not reserved for out-of-range
years, contradicting "a lookup for an in-range year emits none". -/
theorem warningEmittedInRange :
    ((2009 : Int) ≤ 2015 ∧ (2015 : Int) ≤ 2019) ∧ indonesiaWarns 2015 ≠ [] := by
  decide

/-- Claim C5 (amended): each `_populate` containing a hard-coded year table
with a warning emits that diagnostic unconditionally, exactly once per call,
for every requested year — in range or not (display de-duplication is left
to the `warnings` module's filter state); an out-of-range lookup still
records no date for the tabulated holiday. -/
theorem warningUnconditionalOncePerCall :
    ∀ year : Int,
      indonesiaWarns year = ["We only support Nyepi holiday from 2009 to 2019"] ∧
      indiaWarns year = ["We only support Diwali and Holi holidays from 2010 to 2030"] ∧
      thailandWarns year
          = ["We only support Asalha Puja holiday from 2006 to 2025",
             "We only support Vassa holiday from 2006 to 2020"] ∧
      ((year < 2009 ∨ 2019 < year) → indonesiaNyepi year = []) :=
  fun _ => ⟨rfl, rfl, rfl, indonesiaNyepi_out⟩

/-- Claim C5 witness: at the concrete out-of-range year 2030 the warning
lists are exactly one message per table and the Nyepi table records nothing. -/
theorem warningUnconditionalOncePerCall_witness :
    indonesiaWarns 2030 = ["We only support Nyepi holiday from 2009 to 2019"] ∧
    indonesiaNyepi 2030 = [] :=
  ⟨(warningUnconditionalOncePerCall 2030).1,
   (warningUnconditionalOncePerCall 2030).2.2.2 (by decide)⟩

/-- Claim C8: for every hard-coded year table, a target year outside the
supported range records no date for that holiday, a year inside records the
tabulated entry (with the populated year), and population continues
non-fatally with the remaining holidays (Labor Day and New Year's Eve are
still recorded for every year). -/
theorem hardcodedTableRangeBehavior :
    ∀ (observed : Bool) (l2s : Lunar2Solar) (year : Int),
      ((year < 2009 ∨ 2019 < year) → indonesiaNyepi year = []) ∧
      (2009 ≤ year → year ≤ 2019 →
        ∃ m d : Int, indonesiaNyepi year = [(⟨year, m, d⟩, "Day of Silence/ Nyepi")]) ∧
      ((year < 2010 ∨ 2030 < year) → indiaDiwaliHoli year = []) ∧
      (2010 ≤ year → year ≤ 2030 →
        ∃ m1 d1 m2 d2 : Int, indiaDiwaliHoli year
            = [(⟨year, m1, d1⟩, "Diwali"), (⟨year, m2, d2⟩, "Holi")]) ∧
      ((year < 2016 ∨ 2019 < year) → thailandMaghaPujab year = []) ∧
      (2016 ≤ year → year ≤ 2019 →
        ∃ m d : Int, thailandMaghaPujab year = [(⟨year, m, d⟩, "Magha Pujab/Makha Bucha")]) ∧
      ((year < 2006 ∨ 2025 < year) → thailandAsalhaPuja year = []) ∧
      (2006 ≤ year → year ≤ 2025 →
        ∃ m d : Int, thailandAsalhaPuja year = [(⟨year, m, d⟩, "Asalha Puja")]) ∧
      ((year < 2006 ∨ 2020 < year) → thailandVassa year = []) ∧
      (2006 ≤ year → year ≤ 2020 →
        ∃ m d : Int, thailandVassa year = [(⟨year, m, d⟩, "Beginning of Vassa")]) ∧
      ((⟨year, 5, 1⟩, "Labor Day") : Entry) ∈ indonesiaAsgs observed l2s year ∧
      ((⟨year, 12, 31⟩, "New Year's Eve") : Entry) ∈ thailandAsgs observed l2s year := by
  intro observed l2s year
  refine ⟨indonesiaNyepi_out, indonesiaNyepi_in, indiaDiwaliHoli_out,
    indiaDiwaliHoli_in, thailandMaghaPujab_out, thailandMaghaPujab_in,
    thailandAsalhaPuja_out, thailandAsalhaPuja_in, thailandVassa_out,
    thailandVassa_in, ?_, ?_⟩
  · simp [indonesiaAsgs, indonesiaRest, indonesiaLaborDay]
  · simp [thailandAsgs, thailandFixedTail]

/-- Claim C8 witness: concrete instances — 2030 is past the Nyepi range and
records nothing, 2015 is inside and records the tabulated date, and Labor
Day is still recorded for 2030. -/
theorem hardcodedTableRangeBehavior_witness :
    indonesiaNyepi 2030 = [] ∧
    (∃ m d : Int, indonesiaNyepi 2015 = [(⟨2015, m, d⟩, "Day of Silence/ Nyepi")]) ∧
    indiaDiwaliHoli 2031 = [] ∧
    thailandMaghaPujab 2020 = [] ∧
    thailandAsalhaPuja 2026 = [] ∧
    thailandVassa 2021 = [] ∧
    ((⟨2030, 5, 1⟩, "Labor Day") : Entry)
        ∈ indonesiaAsgs true trivialLunar2Solar 2030 :=
  ⟨(hardcodedTableRangeBehavior true trivialLunar2Solar 2030).1 (by decide),
   (hardcodedTableRangeBehavior true trivialLunar2Solar 2015).2.1 (by decide) (by decide),
   (hardcodedTableRangeBehavior true trivialLunar2Solar 2031).2.2.1 (by decide),
   (hardcodedTableRangeBehavior true trivialLunar2Solar 2020).2.2.2.2.1 (by decide),
   (hardcodedTableRangeBehavior true trivialLunar2Solar 2026).2.2.2.2.2.2.1 (by decide),
   (hardcodedTableRangeBehavior true trivialLunar2Solar 2021).2.2.2.2.2.2.2.2.1 (by decide),
   (hardcodedTableRangeBehavior true trivialLunar2Solar 2030).2.2.2.2.2.2.2.2.2.2.1⟩

/-- Claim C9 counterexample: in 2072 (observed constructor default True, so
the claim asserts date(2072,1,1) maps to "New Year's Day") the Feast of the
Sacrifice (Dhu al-Hijjah 10) falls on January 1 and, being written later,
overrides the New Year entry under last-write-wins; the blocks written
after it are lunar-independent, so this holds for any lunar converter (shown
generally in the claim's theorem), here at a concrete one. -/
theorem newYearOverriddenIn2072 :
    lookupLast (indonesiaAsgs true trivialLunar2Solar 2072) ⟨2072, 1, 1⟩
        = some "Feast of the Sacrifice" ∧
    ((⟨2072, 1, 1⟩, "New Year's Day") : Entry)
        ∈ indonesiaAsgs true trivialLunar2Solar 2072 ∧
    lookupLast (indonesiaAsgs true trivialLunar2Solar 2072) ⟨2072, 1, 1⟩
        ≠ some "New Year's Day" := by
  decide

/-- Claim C9 (amended): Indonesia's populate writes the New Year's Day
entry exactly unless `observed = False` and January 1 falls on a weekend
(in that case no entry named "New Year's Day" exists at all), and the New
Year block is the only part of `Indonesia._populate` that consults the
`observed` flag or the weekday; date(Y,1,1) then maps to "New Year's Day"
provided no later-defined holiday resolves to January 1 of Y — which fails
at Y = 2072, where the mapping at January 1 is "Feast of the Sacrifice"
for every lunar converter and every `observed` flag. -/
theorem newYearToggle :
    ∀ (observed : Bool) (l2s : Lunar2Solar) (year : Int),
      indonesiaAsgs observed l2s year
          = indonesiaNewYear observed year ++ indonesiaRest l2s year ∧
      (observed = false → WEEKEND (weekday ⟨year, 1, 1⟩) = true →
        ∀ p ∈ indonesiaAsgs observed l2s year, p.2 ≠ "New Year's Day") ∧
      (¬(observed = false ∧ WEEKEND (weekday ⟨year, 1, 1⟩) = true) →
        ((⟨year, 1, 1⟩, "New Year's Day") : Entry) ∈ indonesiaAsgs observed l2s year ∧
        ((∀ p ∈ indonesiaRest l2s year, p.1 ≠ (⟨year, 1, 1⟩ : GDate)) →
          lookupLast (indonesiaAsgs observed l2s year) ⟨year, 1, 1⟩
              = some "New Year's Day")) ∧
      lookupLast (indonesiaAsgs observed l2s 2072) ⟨2072, 1, 1⟩
          = some "Feast of the Sacrifice" := by
  intro observed l2s year
  refine ⟨rfl, ?_, ?_, ?_⟩
  · rintro rfl hwk p hp
    rcases List.mem_append.mp hp with h | h
    · simp only [indonesiaNewYear, hwk, Bool.not_false, Bool.true_and, if_true] at h
      exact absurd h (List.not_mem_nil p)
    · exact snd_indonesiaRest h
  · intro hn
    have hny : indonesiaNewYear observed year = [(⟨year, 1, 1⟩, "New Year's Day")] := by
      cases observed with
      | true => simp [indonesiaNewYear]
      | false =>
        have hw : WEEKEND (weekday ⟨year, 1, 1⟩) = false := by
          cases hv : WEEKEND (weekday ⟨year, 1, 1⟩) with
          | true => exact absurd ⟨rfl, hv⟩ hn
          | false => rfl
        simp [indonesiaNewYear, hw]
    constructor
    · exact List.mem_append.mpr (Or.inl (hny ▸ List.mem_singleton_self _))
    · intro hrest
      show lookupLast (indonesiaNewYear observed year ++ indonesiaRest l2s year) _ = _
      rw [lookupLast_append, lookupLast_eq_none hrest, hny]
      simp [lookupLast]
  · have hsplit : indonesiaAsgs observed l2s 2072
        = (indonesiaNewYear observed 2072 ++ indonesiaChineseNewYear l2s 2072
            ++ indonesiaNyepi 2072 ++ indonesiaAscensionProphet 2072
            ++ indonesiaLaborDay 2072 ++ indonesiaAscensionJesus 2072
            ++ indonesiaBuddha l2s 2072 ++ indonesiaPancasila 2072
            ++ indonesiaEidAlFitr 2072 ++ indonesiaIndependence 2072)
          ++ (indonesiaSacrifice 2072 ++ indonesiaIslamicNewYear 2072
              ++ indonesiaBirthProphet 2072 ++ indonesiaChristmas 2072) := by
      simp only [indonesiaAsgs, indonesiaRest, List.append_assoc]
    rw [hsplit, lookupLast_append,
      show lookupLast (indonesiaSacrifice 2072 ++ indonesiaIslamicNewYear 2072
          ++ indonesiaBirthProphet 2072 ++ indonesiaChristmas 2072) ⟨2072, 1, 1⟩
        = some "Feast of the Sacrifice" from by decide]

/-- Claim C9 witness: at 2015 with observed = True and a lunar converter
that sends nothing to January 1, the entry is present and the mapping at
January 1 is "New Year's Day". -/
theorem newYearToggle_witness :
    ((⟨2015, 1, 1⟩, "New Year's Day") : Entry)
        ∈ indonesiaAsgs true (fun y m d => ⟨y, m + 1, d⟩) 2015 ∧
    lookupLast (indonesiaAsgs true (fun y m d => ⟨y, m + 1, d⟩) 2015) ⟨2015, 1, 1⟩
        = some "New Year's Day" := by
  have h := (newYearToggle true (fun y m d => ⟨y, m + 1, d⟩) 2015).2.2.1 (by decide)
  exact ⟨h.1, h.2 (by decide)⟩

/-- Claim C10: Thailand records "Chakri Memorial Day" on April 8 when April
6 is a Saturday (weekday 5), on April 7 when it is a Sunday (weekday 6),
and on April 6 otherwise; the shift is unconditional — the Chakri block is
recorded in every populate run, no other Thai holiday carries that name,
and `Thailand._populate` never consults the `observed` flag. -/
theorem chakriWeekendShift :
    ∀ (observed : Bool) (l2s : Lunar2Solar) (year : Int),
      (weekday ⟨year, 4, 6⟩ = 5 →
        thailandChakri year = [(⟨year, 4, 8⟩, "Chakri Memorial Day")]) ∧
      (weekday ⟨year, 4, 6⟩ = 6 →
        thailandChakri year = [(⟨year, 4, 7⟩, "Chakri Memorial Day")]) ∧
      (weekday ⟨year, 4, 6⟩ ≠ 5 → weekday ⟨year, 4, 6⟩ ≠ 6 →
        thailandChakri year = [(⟨year, 4, 6⟩, "Chakri Memorial Day")]) ∧
      (∀ p ∈ thailandChakri year, p ∈ thailandAsgs observed l2s year) ∧
      (∀ p ∈ thailandAsgs observed l2s year, p.2 = "Chakri Memorial Day" →
        p ∈ thailandChakri year) ∧
      thailandAsgs observed l2s year = thailandAsgs true l2s year := by
  intro observed l2s year
  refine ⟨?_, ?_, ?_, ?_, ?_, rfl⟩
  · intro h5
    delta thailandChakri
    rw [if_pos h5]
    norm_num
  · intro h6
    delta thailandChakri
    rw [if_neg (by omega), if_pos h6]
    norm_num
  · intro h5 h6
    delta thailandChakri
    rw [if_neg h5, if_neg h6]
  · intro p hp
    simp only [thailandAsgs, List.append_assoc, List.mem_append]
    tauto
  · intro p hp hname
    simp only [thailandAsgs, List.append_assoc, List.mem_append] at hp
    rcases hp with h | h | h | h | h | h | h | h | h | h
    · exact absurd (hname ▸ snd_thailandNewYear h) (by decide)
    · exact absurd (hname ▸ snd_thailandMaghaPujab h) (by decide)
    · exact h
    · exact absurd (hname ▸ snd_thailandSongkran h) (by decide)
    · exact absurd (hname ▸ snd_thailandBuddha h) (by decide)
    · exact absurd (hname ▸ snd_thailandCoronation h) (by decide)
    · exact absurd (hname ▸ snd_thailandKingVajiralongkorn h) (by decide)
    · exact absurd (hname ▸ snd_thailandAsalhaPuja h) (by decide)
    · exact absurd (hname ▸ snd_thailandVassa h) (by decide)
    · exact absurd hname (snd_thailandFixedTail h)

/-- Claim C10 witness: April 6 was a Saturday in 2019 (Chakri recorded on
April 8), a Sunday in 2025 (April 7), and a Tuesday in 2021 (April 6). -/
theorem chakriWeekendShift_witness :
    thailandChakri 2019 = [(⟨2019, 4, 8⟩, "Chakri Memorial Day")] ∧
    thailandChakri 2025 = [(⟨2025, 4, 7⟩, "Chakri Memorial Day")] ∧
    thailandChakri 2021 = [(⟨2021, 4, 6⟩, "Chakri Memorial Day")] :=
  ⟨(chakriWeekendShift true trivialLunar2Solar 2019).1 (by decide),
   (chakriWeekendShift true trivialLunar2Solar 2025).2.1 (by decide),
   (chakriWeekendShift true trivialLunar2Solar 2021).2.2.1 (by decide) (by decide)⟩

end Hdays

